import Mathlib

/-!
Shallow embedding of the serverbond-docker agent's site deployment pipeline
(src/agent/modules/site_builder.py, utils.py, security.py, templates.py and
the /build and /redeploy endpoints of src/agent/agent_new.py), together with
theorems settling the specification claims about it.

External effects (subprocess invocations, the filesystem, the shared MySQL
container) are modelled by explicit oracle records and event traces; machine
randomness (secrets.token_urlsafe) is modelled as an entropy string supplied
by the environment.
-/

namespace ServerBond

/-- Single left-to-right pass of Python str.replace on character lists,
with fuel bounded by the length of the haystack. -/
def replaceAux (pat rep : List Char) : Nat → List Char → List Char
  | 0, _ => []
  | _ + 1, [] => []
  | fuel + 1, c :: cs =>
    if pat ≠ [] ∧ pat.isPrefixOf (c :: cs) then
      rep ++ replaceAux pat rep fuel ((c :: cs).drop pat.length)
    else
      c :: replaceAux pat rep fuel cs

/-- Python str.replace(pat, rep): replace every non-overlapping occurrence,
scanning left to right. -/
def replaceList (s pat rep : List Char) : List Char :=
  replaceAux pat rep s.length s

/-- Python substring membership test (the `in` operator on str). -/
def containsStr (hay needle : String) : Bool :=
  decide (needle.data <:+: hay.data)

/-- Python `x or default` for an optional string field of a pydantic request:
None and the empty string are falsy and select the default. -/
def orDefault (v : Option String) (d : String) : String :=
  match v with
  | none => d
  | some s => if s = "" then d else s

/-- Python truthiness of an optional string field: `some s` with nonempty s. -/
def truthy (v : Option String) : Bool :=
  match v with
  | none => false
  | some s => s ≠ ""

/-- The apostrophe character, written by code point. -/
def squote : Char := Char.ofNat 39

/-- A string holding one apostrophe. -/
def squoteStr : String := String.mk [squote]

/-- Wrap a string in single quotes, as the provisioning SQL does for
user names, host patterns and the password. -/
def sq (s : String) : String := squoteStr ++ s ++ squoteStr

/-- SecurityValidator.sanitize_filename's denylist
(src/agent/modules/security.py lines 57-66): the substrings replaced by an
underscore, in the order the source lists them. -/
def dangerous_chars : List (List Char) :=
  [[Char.ofNat 46, Char.ofNat 46], [Char.ofNat 47], [Char.ofNat 92],
   [Char.ofNat 58], [Char.ofNat 42], [Char.ofNat 63], [Char.ofNat 34],
   [Char.ofNat 60], [Char.ofNat 62], [Char.ofNat 124]]

/-- SecurityValidator.sanitize_filename: replace each denylisted substring
with an underscore, then truncate to 100 characters. -/
def sanitize_filename (s : String) : String :=
  String.mk ((dangerous_chars.foldl (fun acc pat => replaceList acc pat [Char.ofNat 95]) s.data).take 100)

/-- Characters the Python shlex.quote treats as safe (the complement of its
unsafe regex, ASCII word characters plus the punctuation @ % + = : , . slash dash). -/
def shlexSafeChar (c : Char) : Bool :=
  (Char.isAlpha c && c.toNat < 128) || c.isDigit || c = Char.ofNat 95 ||
    c ∈ [Char.ofNat 64, Char.ofNat 37, Char.ofNat 43, Char.ofNat 61,
         Char.ofNat 58, Char.ofNat 44, Char.ofNat 46, Char.ofNat 47, Char.ofNat 45]

/-- Python shlex.quote: return the string unchanged when every character is
safe, otherwise single-quote it, escaping embedded single quotes. -/
def shlexQuote (s : String) : String :=
  if s = "" then sq ""
  else if s.data.all shlexSafeChar then s
  else squoteStr ++ String.mk (replaceList s.data [squote] [squote, Char.ofNat 34, squote, Char.ofNat 34, squote]) ++ squoteStr

/-- Result of attempting to read a manifest file from a source tree:
absent, present but unreadable (read raises), or its text content. -/
inductive ReadResult where
  | missing
  | unreadable
  | content (s : String)
deriving DecidableEq, Repr

/-- A checked-out source tree as seen by detect_framework: path validity,
the two dependency manifests, and the static entry point. -/
structure SourceTree where
  pathOk : Bool
  composerJson : ReadResult
  packageJson : ReadResult
  indexHtml : Bool
deriving DecidableEq, Repr

/-- Final rule of detect_framework: index.html selects static, else unknown. -/
def detectStatic (t : SourceTree) : String :=
  if t.indexHtml then "static" else "unknown"

/-- package.json rules of detect_framework: substring checks for next, nuxt,
express/fastify; a missing or unreadable manifest falls through. -/
def detectFromPackage (t : SourceTree) : String :=
  match t.packageJson with
  | ReadResult.content c =>
    if containsStr c "next" then "nextjs"
    else if containsStr c "nuxt" then "nuxt"
    else if containsStr c "express" || containsStr c "fastify" then "nodeapi"
    else detectStatic t
  | _ => detectStatic t

/-- detect_framework (src/agent/modules/utils.py lines 63-109): an invalid
path yields unknown; otherwise composer.json is consulted first for the
Laravel family, then package.json, then index.html; every read failure is
caught and detection falls through to the next rule. -/
def detect_framework (t : SourceTree) : String :=
  if t.pathOk = false then "unknown"
  else
    match t.composerJson with
    | ReadResult.content c =>
      if containsStr c "laravel/framework" then
        if containsStr c "inertiajs/inertia" then "laravel-inertia" else "laravel"
      else detectFromPackage t
    | _ => detectFromPackage t

/-- Ordered detection rules as the spec words them: each rule either selects
a variant or passes, and the first match wins. -/
def specRules : List (SourceTree → Option String) :=
  [fun t =>
    match t.composerJson with
    | ReadResult.content c =>
      if containsStr c "laravel/framework" then
        some (if containsStr c "inertiajs/inertia" then "laravel-inertia" else "laravel")
      else none
    | _ => none,
   fun t =>
    match t.packageJson with
    | ReadResult.content c =>
      if containsStr c "next" then some "nextjs"
      else if containsStr c "nuxt" then some "nuxt"
      else if containsStr c "express" || containsStr c "fastify" then some "nodeapi"
      else none
    | _ => none,
   fun t => if t.indexHtml then some "static" else none]

/-- First-match-wins evaluation of an ordered rule list, defaulting to
unknown when no rule matches. -/
def firstMatch (rules : List (SourceTree → Option String)) (t : SourceTree) : String :=
  match rules with
  | [] => "unknown"
  | r :: rs =>
    match r t with
    | some v => v
    | none => firstMatch rs t

/-- Detection as the spec describes it: the fixed priority rules evaluated
first-match-wins over a valid source tree, unknown otherwise. -/
def detectSpec (t : SourceTree) : String :=
  if t.pathOk = false then "unknown" else firstMatch specRules t

/-- Abstract state of the shared MySQL service: the existing schemas, users
and privilege grants.  Modelled from the spec: the MySQL server is an
external collaborator (it runs inside the shared container); its
create-if-not-exists and grant semantics follow the spec's description of
the administrative statements the code emits. -/
structure MySqlState where
  databases : List String
  users : List String
  grants : List (String × String)
deriving DecidableEq, Repr

/-- The administrative SQL statements provision_mysql emits, as an abstract
syntax carrying the if-not-exists flags the source writes literally. -/
inductive SqlStmt where
  | createDatabase (ifNotExists : Bool) (name charset collation : String)
  | createUser (ifNotExists : Bool) (name password : String)
  | grantAll (db user : String)
  | flushPrivileges
deriving Repr

/-- Modelled from the spec: execution of one administrative statement by the
external MySQL server.  An unconditional CREATE of an existing object fails;
the IF NOT EXISTS forms succeed and leave the state unchanged; GRANT is
idempotent on the grant set. -/
def execStmt : SqlStmt → MySqlState → Except String MySqlState
  | SqlStmt.createDatabase ine n _ _, st =>
    if n ∈ st.databases then
      if ine then Except.ok st else Except.error "database exists"
    else Except.ok { st with databases := st.databases ++ [n] }
  | SqlStmt.createUser ine n _, st =>
    if n ∈ st.users then
      if ine then Except.ok st else Except.error "user exists"
    else Except.ok { st with users := st.users ++ [n] }
  | SqlStmt.grantAll db user, st =>
    if (db, user) ∈ st.grants then Except.ok st
    else Except.ok { st with grants := st.grants ++ [(db, user)] }
  | SqlStmt.flushPrivileges, st => Except.ok st

/-- Run a statement list in order, stopping at the first failure. -/
def runStmts : List SqlStmt → MySqlState → Except String MySqlState
  | [], st => Except.ok st
  | s :: rest, st =>
    match execStmt s st with
    | Except.ok st2 => runStmts rest st2
    | Except.error e => Except.error e

/-- Render one statement to the SQL text the source interpolates. -/
def renderStmt : SqlStmt → String
  | SqlStmt.createDatabase ine n charset collation =>
    "CREATE DATABASE " ++ (if ine then "IF NOT EXISTS " else "") ++ "`" ++ n ++
      "` CHARACTER SET " ++ charset ++ " COLLATE " ++ collation ++ ";"
  | SqlStmt.createUser ine n password =>
    "CREATE USER " ++ (if ine then "IF NOT EXISTS " else "") ++ sq n ++ "@" ++
      sq "%" ++ " IDENTIFIED BY " ++ sq password ++ ";"
  | SqlStmt.grantAll db user =>
    "GRANT ALL PRIVILEGES ON `" ++ db ++ "`.* TO " ++ sq user ++ "@" ++ sq "%" ++ ";"
  | SqlStmt.flushPrivileges => "FLUSH PRIVILEGES;"

/-- Render a statement list to the newline-separated script sent to mysql. -/
def renderScript (l : List SqlStmt) : String :=
  String.intercalate "\n" (l.map renderStmt)

/-- The provisioning script of provision_mysql (utils.py lines 132-137):
create-if-not-exists for the schema and the user, an unconditional grant,
then FLUSH PRIVILEGES, interpolating the (already sanitized) identifiers and
the raw password text. -/
def provisionScript (db user pass charset collation : String) : List SqlStmt :=
  [SqlStmt.createDatabase true db charset collation,
   SqlStmt.createUser true user pass,
   SqlStmt.grantAll db user,
   SqlStmt.flushPrivileges]

/-- Environment of one provisioning attempt: the reported status of the
shared MySQL container, and whether the docker-exec transport itself works
(reachability, root credential). -/
structure ProvisionEnv where
  containerStatus : String
  execInfraOk : Bool
deriving DecidableEq, Repr

/-- Outcome of provision_mysql: success flag, resulting MySQL state, and the
SQL text and shell command actually produced (none when the run failed
before reaching the administrative command). -/
structure ProvisionResult where
  ok : Bool
  state : MySqlState
  sqlSent : Option String
  cmdRun : Option String
deriving Repr

/-- provision_mysql (utils.py lines 111-159): reject empty required
arguments, sanitize the database and user names with sanitize_filename,
fail fast when the shared container is not running, then pipe the
provisioning script into a docker-exec mysql shell command whose root
password is escaped with shlex.quote; a non-zero exit reports failure. -/
def provision_mysql (db_name db_user db_pass mysql_root_pass container charset collation : String)
    (env : ProvisionEnv) (st : MySqlState) : ProvisionResult :=
  if db_name = "" || db_user = "" || db_pass = "" || mysql_root_pass = "" || container = "" then
    { ok := false, state := st, sqlSent := none, cmdRun := none }
  else
    let db := sanitize_filename db_name
    let user := sanitize_filename db_user
    if env.containerStatus ≠ "running" then
      { ok := false, state := st, sqlSent := none, cmdRun := none }
    else
      let script := provisionScript db user db_pass charset collation
      let sql := renderScript script
      let cmd := "docker exec -i " ++ container ++ " mysql -uroot -p" ++ shlexQuote mysql_root_pass
      if env.execInfraOk = false then
        { ok := false, state := st, sqlSent := some sql, cmdRun := some cmd }
      else
        match runStmts script st with
        | Except.ok st2 => { ok := true, state := st2, sqlSent := some sql, cmdRun := some cmd }
        | Except.error _ => { ok := false, state := st, sqlSent := some sql, cmdRun := some cmd }

/-- Oracle for one write_file call: whether the target already exists and
whether each fallible filesystem operation succeeds. -/
structure FsOracle where
  fileExists : Bool
  copyOk : Bool
  mkdirOk : Bool
  writeOk : Bool
deriving DecidableEq, Repr

/-- Filesystem effects write_file can perform, in order. -/
inductive FsStep where
  | backupCopy (src dst : String)
  | mkdirParents (p : String)
  | writeText (p content : String)
deriving DecidableEq, Repr

/-- Body of write_file before its exception handler: back up an existing
target when requested, create the parent directory, write the text.  A
failing operation raises, keeping the effects performed so far. -/
def write_file_body (path content : String) (backup : Bool) (o : FsOracle) :
    Except String Unit × List FsStep :=
  if backup && o.fileExists then
    if o.copyOk = false then (Except.error "copy failed", [])
    else
      let ev1 := FsStep.backupCopy path (path ++ ".backup")
      if o.mkdirOk = false then (Except.error "mkdir failed", [ev1])
      else if o.writeOk = false then (Except.error "write failed", [ev1, FsStep.mkdirParents path])
      else (Except.ok (), [ev1, FsStep.mkdirParents path, FsStep.writeText path content])
  else
    if o.mkdirOk = false then (Except.error "mkdir failed", [])
    else if o.writeOk = false then (Except.error "write failed", [FsStep.mkdirParents path])
    else (Except.ok (), [FsStep.mkdirParents path, FsStep.writeText path content])

/-- write_file (utils.py lines 15-36): run the body under a blanket
exception handler, returning True on success and False on any failure;
no exception escapes to the caller. -/
def write_file (path content : String) (backup : Bool) (o : FsOracle) : Bool × List FsStep :=
  match write_file_body path content backup o with
  | (Except.ok _, evs) => (true, evs)
  | (Except.error _, evs) => (false, evs)

/-- Image and extension metadata for one PHP version entry of the
configuration bundle. -/
structure PhpCfg where
  image : String
  extensions : String
deriving DecidableEq, Repr

/-- The configuration bundle the pipeline reads (config.json, or the
fallback dictionary of modules/config.py), restricted to the keys the
deployment pipeline consults. -/
structure Config where
  base_dir : String
  template_dir : String
  network : String
  shared_mysql_container : String
  shared_redis_container : String
  default_php_version : String
  mysql_charset : String
  mysql_collation : String
  php_versions : List (String × PhpCfg)
deriving Repr

/-- The duck-typed request object site_builder.py reads: the field set of
BuildRequest in modules/api.py.  Optional fields model pydantic fields
defaulting to None. -/
structure BuildRequest where
  repo : String
  domain : String
  framework : Option String := none
  php_version : Option String := none
  db_name : Option String := none
  db_user : Option String := none
  db_pass : Option String := none
deriving DecidableEq, Repr

/-- The flat template context built by render_site_templates
(site_builder.py lines 156-169). -/
structure RenderCtx where
  app_name : String
  domain : String
  php_version : String
  php_image : String
  php_extensions : String
  network : String
  shared_mysql_container : String
  shared_redis_container : String
  db_name : String
  db_user : String
  db_password : String
  app_key : String
deriving DecidableEq, Repr

/-- Construction of the template context: database fields fall back to
app-name-derived defaults and the literal password secret, and the
application key prefixes a fresh random token with base64:. -/
def mkRenderCtx (cfg : Config) (req : BuildRequest) (app_name php_version : String)
    (pc : PhpCfg) (entropy : String) : RenderCtx :=
  { app_name := app_name
    domain := req.domain
    php_version := php_version
    php_image := pc.image
    php_extensions := pc.extensions
    network := cfg.network
    shared_mysql_container := cfg.shared_mysql_container
    shared_redis_container := cfg.shared_redis_container
    db_name := orDefault req.db_name (app_name ++ "_db")
    db_user := orDefault req.db_user (app_name ++ "_user")
    db_password := orDefault req.db_pass "secret"
    app_key := "base64:" ++ entropy }

/-- One Jinja2 template of a framework's template set: its file name and
its rendering function, which may fail (unresolvable reference). -/
structure SiteTemplate where
  name : String
  render : RenderCtx → Except String String

/-- Python t.name.replace applied to the .j2 extension. -/
def stripJ2 (n : String) : String :=
  String.mk (replaceList n.data [Char.ofNat 46, Char.ofNat 106, Char.ofNat 50] [])

/-- Observable effects of one pipeline run, in program order. -/
inductive Event where
  | mkdirP (path : String) (existedBefore : Bool)
  | gitClone (repo dest : String) (ok : Bool)
  | provisionDb (ok : Bool)
  | fileWrite (path content : String)
  | composerInstall (ok : Bool)
  | npmInstall (ok : Bool)
  | composeDown
  | gitPull (ok : Bool)
  | composeUp (ok : Bool)
  | authCheck
  | respond
deriving DecidableEq, Repr

/-- Exceptions the pipeline raises: plain Exception(message), ValueError,
or AttributeError(name) from reading an attribute a pydantic request does
not declare. -/
inductive Err where
  | message (s : String)
  | valueError (s : String)
  | attributeError (s : String)
deriving DecidableEq, Repr

/-- World state and oracle outcomes for one pipeline run. -/
structure PipelineEnv where
  dirExists : Bool
  dirNonEmpty : Bool
  gitCloneOk : Bool
  tree : SourceTree
  provisionEnv : ProvisionEnv
  composerOk : Bool
  npmOk : Bool
  gitPullOk : Bool
  composeUpOk : Bool
  envEntropy : String
  renderEntropy : String
  persistedAppKey : String

/-- Rendering loop of render_site_templates (site_builder.py lines 171-175):
each template in glob order is rendered and its output immediately written
(write_file's boolean result is discarded); a rendering failure propagates,
leaving the writes already performed. -/
def renderLoop (ts : List SiteTemplate) (app_dir : String) (ctx : RenderCtx) :
    Except Err Unit × List Event :=
  match ts with
  | [] => (Except.ok (), [])
  | t :: rest =>
    match t.render ctx with
    | Except.error e => (Except.error (Err.message e), [])
    | Except.ok content =>
      let ev := Event.fileWrite (app_dir ++ "/" ++ stripJ2 t.name) content
      let (r, evs) := renderLoop rest app_dir ctx
      (r, ev :: evs)

/-- render_site_templates (site_builder.py lines 145-175): validate the PHP
version against the configuration, build the flat context (with a freshly
generated application key), then render and write every template of the
framework's template directory. -/
def render_site_templates (cfg : Config) (templates : List SiteTemplate)
    (req : BuildRequest) (app_dir app_name : String) (entropy : String) :
    Except Err Unit × List Event :=
  let php_version := orDefault req.php_version cfg.default_php_version
  match (cfg.php_versions.find? (fun p => p.1 == php_version)).map (fun p => p.2) with
  | none => (Except.error (Err.valueError ("Unsupported PHP version: " ++ php_version)), [])
  | some pc =>
    let ctx := mkRenderCtx cfg req app_name php_version pc entropy
    renderLoop templates app_dir ctx

/-- generate_laravel_env (templates.py lines 14-77): the .env content, with
a fresh base64-prefixed application key. -/
def generate_laravel_env (app_name domain db_name db_user db_pass
    shared_mysql_container shared_redis_container entropy : String) : String :=
  let app_key := "base64:" ++ entropy
  "APP_NAME=" ++ app_name ++ "\nAPP_ENV=production\nAPP_KEY=" ++ app_key ++
  "\nAPP_DEBUG=false\nAPP_URL=https://" ++ domain ++
  "\n\nLOG_CHANNEL=stack\nLOG_DEPRECATIONS_CHANNEL=null\nLOG_LEVEL=debug\n\nDB_CONNECTION=mysql\nDB_HOST=" ++
  shared_mysql_container ++ "\nDB_PORT=3306\nDB_DATABASE=" ++ db_name ++
  "\nDB_USERNAME=" ++ db_user ++ "\nDB_PASSWORD=" ++ db_pass ++
  "\n\nBROADCAST_DRIVER=log\nCACHE_DRIVER=redis\nFILESYSTEM_DISK=local\nQUEUE_CONNECTION=redis\nSESSION_DRIVER=redis\nSESSION_LIFETIME=120\n\nREDIS_HOST=" ++
  shared_redis_container ++
  "\nREDIS_PASSWORD=null\nREDIS_PORT=6379\n\nMAIL_MAILER=smtp\nMAIL_HOST=mailpit\nMAIL_PORT=1025\nMAIL_USERNAME=null\nMAIL_PASSWORD=null\nMAIL_ENCRYPTION=null\nMAIL_FROM_ADDRESS=\"hello@example.com\"\nMAIL_FROM_NAME=\"$" ++
  app_name ++
  "\"\n\nAWS_ACCESS_KEY_ID=\nAWS_SECRET_ACCESS_KEY=\nAWS_DEFAULT_REGION=us-east-1\nAWS_BUCKET=\nAWS_USE_PATH_STYLE_ENDPOINT=false\n\nPUSHER_APP_ID=\nPUSHER_APP_KEY=\nPUSHER_APP_SECRET=\nPUSHER_HOST=\nPUSHER_PORT=443\nPUSHER_SCHEME=https\nPUSHER_APP_CLUSTER=mt1\n\nVITE_APP_NAME=\"$" ++
  app_name ++
  "\"\nVITE_PUSHER_APP_KEY=\"\"\nVITE_PUSHER_HOST=\"\"\nVITE_PUSHER_PORT=\"443\"\nVITE_PUSHER_SCHEME=\"https\"\nVITE_PUSHER_APP_CLUSTER=\"mt1\"\n\nQUEUE_CONNECTION=redis\n"

/-- setup_laravel_site (site_builder.py lines 74-104): resolve database
name, user and password from the request with app-name defaults, provision
the database (the awaited boolean result is discarded), write the generated
.env file, and run composer install, whose failure is only a warning. -/
def setup_laravel_site (cfg : Config) (req : BuildRequest) (env : PipelineEnv)
    (app_dir app_name mysql_root_pass : String) (st : MySqlState) :
    List Event × MySqlState :=
  let db_name := orDefault req.db_name (app_name ++ "_db")
  let db_user := orDefault req.db_user (app_name ++ "_user")
  let db_pass := orDefault req.db_pass "secret"
  let pr := provision_mysql db_name db_user db_pass mysql_root_pass
    cfg.shared_mysql_container cfg.mysql_charset cfg.mysql_collation env.provisionEnv st
  let envContent := generate_laravel_env app_name req.domain db_name db_user db_pass
    cfg.shared_mysql_container cfg.shared_redis_container env.envEntropy
  ([Event.provisionDb pr.ok,
    Event.fileWrite (app_dir ++ "/.env") envContent,
    Event.composerInstall env.composerOk], pr.state)

/-- Framework resolution step of build_site: an explicit request framework
wins; otherwise detection runs, and unknown aborts the build. -/
def resolveFramework (req : BuildRequest) (tree : SourceTree) : Except Err String :=
  if truthy req.framework then Except.ok (req.framework.getD "")
  else
    let d := detect_framework tree
    if d = "unknown" then Except.error (Err.message "Could not detect framework")
    else Except.ok d

/-- Python req.domain.split(".")[0]: the domain's leftmost label, i.e. the
characters before the first dot (the whole string when it has no dot). -/
def firstLabel (domain : String) : String :=
  String.mk (domain.data.takeWhile (fun c => c ≠ Char.ofNat 46))

/-- Tail of build_site after the framework-specific setup: render the
templates (a failure propagates) and start the container group. -/
def buildFinish (cfg : Config) (templates : List SiteTemplate) (req2 : BuildRequest)
    (renderEntropy : String) (composeUpOk : Bool) (app_dir app_name : String)
    (pre : List Event) (setup : List Event × MySqlState) :
    Except Err String × List Event × MySqlState :=
  let (rres, revs) := render_site_templates cfg templates req2 app_dir app_name renderEntropy
  match rres with
  | Except.error e => (Except.error e, pre ++ setup.1 ++ revs, setup.2)
  | Except.ok _ =>
    let evUp := Event.composeUp composeUpOk
    if composeUpOk then
      (Except.ok ("Site " ++ app_name ++ " deployed successfully"),
       pre ++ setup.1 ++ revs ++ [evUp], setup.2)
    else
      (Except.error (Err.message "Failed to start containers"),
       pre ++ setup.1 ++ revs ++ [evUp], setup.2)

/-- build_site (site_builder.py lines 19-72): derive the site name from the
domain's leftmost label, create the target directory with exist_ok
semantics, clone the repository (a non-empty existing target makes git
fail), resolve the framework, run the framework-specific setup, render the
templates, and start the container group. -/
def build_site (cfg : Config) (templates : List SiteTemplate) (req : BuildRequest)
    (env : PipelineEnv) (mysql_root_pass : String) (st : MySqlState) :
    Except Err String × List Event × MySqlState :=
  let app_name := firstLabel req.domain
  let app_dir := cfg.base_dir ++ "/" ++ app_name
  let evMkdir := Event.mkdirP app_dir env.dirExists
  let cloneOk := env.gitCloneOk && !(env.dirExists && env.dirNonEmpty)
  let evClone := Event.gitClone req.repo app_dir cloneOk
  if cloneOk = false then
    (Except.error (Err.message "Git clone failed"), [evMkdir, evClone], st)
  else
    match resolveFramework req env.tree with
    | Except.error e => (Except.error e, [evMkdir, evClone], st)
    | Except.ok fw =>
      let req2 : BuildRequest := { req with framework := some fw }
      let setup :=
        if fw = "laravel" || fw = "laravel-inertia" then
          setup_laravel_site cfg req2 env app_dir app_name mysql_root_pass st
        else if fw = "nextjs" || fw = "nuxt" || fw = "nodeapi" then
          ([Event.npmInstall env.npmOk], st)
        else ([], st)
      buildFinish cfg templates req2 env.renderEntropy env.composeUpOk app_dir app_name
        [evMkdir, evClone] setup

/-- RedeployRequest (modules/api.py lines 27-28): the /redeploy payload
declares only the domain field. -/
structure RedeployRequest where
  domain : String
deriving DecidableEq, Repr

/-- redeploy_site (site_builder.py lines 177-219) as invoked from the
/redeploy endpoint (agent_new.py lines 97-103) with a RedeployRequest: a
missing site directory aborts before any effect; otherwise the containers
are stopped and the source pulled (pull failure only a warning), and then
render_site_templates executes `framework = req.framework` (site_builder.py
line 148).  RedeployRequest declares no framework attribute, so that read
raises AttributeError on a pydantic model before any PHP-version lookup,
context construction, template rendering or file write; the exception
propagates out of redeploy_site's handler.  The rendering and
container-start steps of lines 203-212 are therefore unreachable on this
path. -/
def redeploy_site (cfg : Config) (_templates : List SiteTemplate) (req : RedeployRequest)
    (env : PipelineEnv) : Except Err String × List Event :=
  let app_name := firstLabel req.domain
  let _app_dir := cfg.base_dir ++ "/" ++ app_name
  if env.dirExists = false then
    (Except.error (Err.message "Site not found"), [])
  else
    let evDown := Event.composeDown
    let evPull := Event.gitPull env.gitPullOk
    (Except.error (Err.attributeError "framework"), [evDown, evPull])

/-- HTTP response of the deployment endpoints: success payload, or an
HTTPException status and detail. -/
inductive HttpResponse where
  | success (message : String)
  | httpError (status : Nat) (detail : String)
deriving DecidableEq, Repr

/-- build_site_endpoint (agent_new.py lines 89-95): check the agent token,
then execute the whole build pipeline within the request and answer with
its result, mapping any exception to HTTP 500.  The response event is
emitted only after every pipeline event. -/
def build_site_endpoint (cfg : Config) (templates : List SiteTemplate)
    (req : BuildRequest) (env : PipelineEnv) (mysql_root_pass : String)
    (st : MySqlState) (token agentToken : String) :
    HttpResponse × List Event :=
  if agentToken ≠ "" && token ≠ agentToken then
    (HttpResponse.httpError 401 "Unauthorized", [Event.authCheck])
  else
    let (res, evs, _) := build_site cfg templates req env mysql_root_pass st
    match res with
    | Except.ok m =>
      (HttpResponse.success m, Event.authCheck :: evs ++ [Event.respond])
    | Except.error _ =>
      (HttpResponse.httpError 500 "Build failed", Event.authCheck :: evs ++ [Event.respond])

/-- Pipeline events other than the HTTP-layer bookkeeping ones. -/
def isPipelineEvent : Event → Bool
  | Event.authCheck => false
  | Event.respond => false
  | _ => true

/-- Sample configuration matching the fallback dictionary of
modules/config.py, with one PHP version entry. -/
def cfgSample : Config :=
  { base_dir := "/opt/sites"
    template_dir := "/opt/serverbond-agent/templates"
    network := "shared_net"
    shared_mysql_container := "shared_mysql"
    shared_redis_container := "shared_redis"
    default_php_version := "8.3"
    mysql_charset := "utf8mb4"
    mysql_collation := "utf8mb4_unicode_ci"
    php_versions := [("8.3", { image := "serversideup/php:8.3", extensions := "pdo_mysql redis" })] }

/-- Sample source tree holding a composer.json that declares the Laravel
framework dependency. -/
def treeSample : SourceTree :=
  { pathOk := true
    composerJson := ReadResult.content "require laravel/framework 11"
    packageJson := ReadResult.missing
    indexHtml := false }

/-- Sample build request for the demo.example.com domain. -/
def reqSample : BuildRequest :=
  { repo := "https://github.com/acme/app.git", domain := "demo.example.com" }

/-- Sample redeploy request for the demo.example.com domain. -/
def redeployReqSample : RedeployRequest :=
  { domain := "demo.example.com" }

/-- Provisioning environment with the shared container running and the
transport healthy. -/
def provisionEnvRunning : ProvisionEnv :=
  { containerStatus := "running", execInfraOk := true }

/-- Provisioning environment whose shared MySQL container is not running. -/
def provisionEnvDown : ProvisionEnv :=
  { containerStatus := "exited", execInfraOk := true }

/-- Sample template that writes the application key and database password
into a rendered file. -/
def envTemplate : SiteTemplate :=
  { name := "env.j2"
    render := fun ctx => Except.ok ("APP_KEY=" ++ ctx.app_key ++ "\nDB_PASSWORD=" ++ ctx.db_password) }

/-- Sample template whose rendering fails with an unresolvable reference. -/
def badTemplate : SiteTemplate :=
  { name := "broken.j2", render := fun _ => Except.error "template not found" }

/-- Sample pipeline environment for a healthy redeploy of an existing site
whose persisted application key is base64:OLDKEY. -/
def envSample : PipelineEnv :=
  { dirExists := true
    dirNonEmpty := false
    gitCloneOk := true
    tree := treeSample
    provisionEnv := provisionEnvRunning
    composerOk := true
    npmOk := true
    gitPullOk := true
    composeUpOk := true
    envEntropy := "ENVTOK"
    renderEntropy := "RENDERTOK"
    persistedAppKey := "base64:OLDKEY" }

/-- C6: detect_framework agrees everywhere with the spec's ordered
first-match rule list (PHP manifest with the framework dependency, then the
JavaScript manifest dependencies, then the static entry point, else
unknown); it is a total function, and an unreadable manifest behaves
exactly like a missing one, degrading to the next rule. -/
theorem detect_framework_matches_ordered_rules :
    ∀ t : SourceTree,
      detect_framework t = detectSpec t ∧
      detect_framework { t with composerJson := ReadResult.unreadable } =
        detect_framework { t with composerJson := ReadResult.missing } ∧
      detect_framework { t with packageJson := ReadResult.unreadable } =
        detect_framework { t with packageJson := ReadResult.missing } := by
  intro t
  obtain ⟨p, c, pk, ih⟩ := t
  refine ⟨?_, ?_, ?_⟩ <;>
    cases c <;> cases pk <;>
      simp [detect_framework, detectSpec, firstMatch, specRules, detectFromPackage,
        detectStatic] <;>
      split_ifs <;> simp_all

/-- C8: redeploying a domain whose site directory does not exist fails with
the site-not-found error before performing any effect: no containers are
stopped or started, no source is pulled, and nothing is written. -/
theorem redeploy_missing_site_fails_without_mutation :
    ∀ (cfg : Config) (templates : List SiteTemplate) (req : RedeployRequest)
      (env : PipelineEnv), env.dirExists = false →
      redeploy_site cfg templates req env =
        (Except.error (Err.message "Site not found"), []) := by
  intro cfg templates req env h
  simp [redeploy_site, h]

/-- Witness for C8: a concrete redeploy against a missing directory. -/
theorem redeploy_missing_site_fails_without_mutation_witness :
    ({ envSample with dirExists := false } : PipelineEnv).dirExists = false ∧
      redeploy_site cfgSample [envTemplate] redeployReqSample
        { envSample with dirExists := false } =
        (Except.error (Err.message "Site not found"), []) :=
  ⟨rfl, redeploy_missing_site_fails_without_mutation cfgSample [envTemplate] redeployReqSample
    { envSample with dirExists := false } rfl⟩

/-- C10: write_file returns a boolean for every oracle outcome instead of
propagating an exception: the result is true exactly when every filesystem
operation it attempts succeeds, and the target file is written exactly in
the successful runs. -/
theorem write_file_reports_failure_as_false :
    ∀ (path content : String) (backup : Bool) (o : FsOracle),
      (write_file path content backup o).1 =
        ((!(backup && o.fileExists) || o.copyOk) && o.mkdirOk && o.writeOk) ∧
      (FsStep.writeText path content ∈ (write_file path content backup o).2 ↔
        (write_file path content backup o).1 = true) := by
  intro path content backup o
  obtain ⟨fe, co, mo, wo⟩ := o
  cases backup <;> cases fe <;> cases co <;> cases mo <;> cases wo <;>
    simp [write_file, write_file_body]

/-- C7: provisioning is idempotent.  With the shared container running and
the transport healthy, running provision_mysql twice with identical
arguments succeeds both times, the second run leaves the MySQL state
unchanged, and a previously absent schema and user each exist exactly once
afterwards. -/
theorem provision_mysql_idempotent
    (db_name db_user db_pass root container cs coll : String)
    (env : ProvisionEnv) (st : MySqlState)
    (h1 : db_name ≠ "") (h2 : db_user ≠ "") (h3 : db_pass ≠ "")
    (h4 : root ≠ "") (h5 : container ≠ "")
    (hrun : env.containerStatus = "running") (hinfra : env.execInfraOk = true)
    (hfdb : sanitize_filename db_name ∉ st.databases)
    (hfus : sanitize_filename db_user ∉ st.users) :
    (provision_mysql db_name db_user db_pass root container cs coll env st).ok = true ∧
    (provision_mysql db_name db_user db_pass root container cs coll env
      (provision_mysql db_name db_user db_pass root container cs coll env st).state).ok = true ∧
    (provision_mysql db_name db_user db_pass root container cs coll env
      (provision_mysql db_name db_user db_pass root container cs coll env st).state).state =
      (provision_mysql db_name db_user db_pass root container cs coll env st).state ∧
    ((provision_mysql db_name db_user db_pass root container cs coll env st).state.databases.count
      (sanitize_filename db_name)) = 1 ∧
    ((provision_mysql db_name db_user db_pass root container cs coll env st).state.users.count
      (sanitize_filename db_user)) = 1 := by
  obtain ⟨dbs, us, gs⟩ := st
  simp only [provision_mysql, provisionScript, runStmts, execStmt, hrun, hinfra]
  simp only [h1, h2, h3, h4, h5]
  simp only [List.mem_append, List.mem_singleton, or_true, if_true]
  simp at hfdb hfus
  by_cases hg : (sanitize_filename db_name, sanitize_filename db_user) ∈ gs <;>
    simp_all [List.count_append, List.count_eq_zero]

/-- Witness for C7: concrete double provisioning of demo_db/demo_user on an
empty MySQL state. -/
theorem provision_mysql_idempotent_witness :
    (provision_mysql "demo_db" "demo_user" "pw" "rootpw" "shared_mysql" "utf8mb4"
      "utf8mb4_unicode_ci" provisionEnvRunning ⟨[], [], []⟩).ok = true ∧
    (provision_mysql "demo_db" "demo_user" "pw" "rootpw" "shared_mysql" "utf8mb4"
      "utf8mb4_unicode_ci" provisionEnvRunning
      (provision_mysql "demo_db" "demo_user" "pw" "rootpw" "shared_mysql" "utf8mb4"
        "utf8mb4_unicode_ci" provisionEnvRunning ⟨[], [], []⟩).state).ok = true ∧
    (provision_mysql "demo_db" "demo_user" "pw" "rootpw" "shared_mysql" "utf8mb4"
      "utf8mb4_unicode_ci" provisionEnvRunning
      (provision_mysql "demo_db" "demo_user" "pw" "rootpw" "shared_mysql" "utf8mb4"
        "utf8mb4_unicode_ci" provisionEnvRunning ⟨[], [], []⟩).state).state =
      (provision_mysql "demo_db" "demo_user" "pw" "rootpw" "shared_mysql" "utf8mb4"
        "utf8mb4_unicode_ci" provisionEnvRunning ⟨[], [], []⟩).state ∧
    ((provision_mysql "demo_db" "demo_user" "pw" "rootpw" "shared_mysql" "utf8mb4"
      "utf8mb4_unicode_ci" provisionEnvRunning ⟨[], [], []⟩).state.databases.count
      (sanitize_filename "demo_db")) = 1 ∧
    ((provision_mysql "demo_db" "demo_user" "pw" "rootpw" "shared_mysql" "utf8mb4"
      "utf8mb4_unicode_ci" provisionEnvRunning ⟨[], [], []⟩).state.users.count
      (sanitize_filename "demo_user")) = 1 :=
  provision_mysql_idempotent "demo_db" "demo_user" "pw" "rootpw" "shared_mysql"
    "utf8mb4" "utf8mb4_unicode_ci" provisionEnvRunning ⟨[], [], []⟩
    (by decide) (by decide) (by decide) (by decide) (by decide)
    rfl rfl (by decide) (by decide)

set_option maxRecDepth 40000 in
/-- C5 counterexample: sanitize_filename is a denylist substitution, not a
restriction to a safe identifier character set — a name holding a backtick
and a semicolon passes through unchanged into the SQL text; and the site
database password reaches the SQL interpolated raw (an embedded apostrophe
arrives unescaped), while only the root password goes through shlex.quote. -/
theorem provision_identifier_escaping_counterexample :
    sanitize_filename ("a`;b") = "a`;b" ∧
    ((provision_mysql "db" "u" ("p" ++ squoteStr ++ "q") "rootpw" "shared_mysql"
      "utf8mb4" "utf8mb4_unicode_ci" provisionEnvRunning ⟨[], [], []⟩).sqlSent.map
      (fun s => containsStr s ("p" ++ squoteStr ++ "q"))) = some true ∧
    shlexQuote ("p" ++ squoteStr ++ "q") ≠ ("p" ++ squoteStr ++ "q") := by
  refine ⟨by decide, by decide, by decide⟩

/-- C5 amended: before building the administrative command, provision_mysql
passes dbName and dbUser through sanitize_filename (denylist substitution
plus truncation) and interpolates the results into the SQL text; the root
password is escaped with shlex.quote inside the shell command, while the
site database password is interpolated into the SQL verbatim. -/
theorem provision_mysql_sanitizes_identifiers_and_quotes_root
    (db_name db_user db_pass root container cs coll : String)
    (env : ProvisionEnv) (st : MySqlState)
    (h1 : db_name ≠ "") (h2 : db_user ≠ "") (h3 : db_pass ≠ "")
    (h4 : root ≠ "") (h5 : container ≠ "")
    (hrun : env.containerStatus = "running") :
    (provision_mysql db_name db_user db_pass root container cs coll env st).sqlSent =
      some (renderScript (provisionScript (sanitize_filename db_name)
        (sanitize_filename db_user) db_pass cs coll)) ∧
    (provision_mysql db_name db_user db_pass root container cs coll env st).cmdRun =
      some ("docker exec -i " ++ container ++ " mysql -uroot -p" ++ shlexQuote root) := by
  have hc : (db_name = "" || db_user = "" || db_pass = "" || root = "" || container = "") = false := by
    simp [h1, h2, h3, h4, h5]
  obtain ⟨cstat, infra⟩ := env
  simp only at hrun
  subst hrun
  cases infra
  · simp [provision_mysql, hc]
  · simp only [provision_mysql, hc]
    simp
    cases runStmts (provisionScript (sanitize_filename db_name) (sanitize_filename db_user)
      db_pass cs coll) st <;> simp

/-- Witness for the amended C5 theorem at concrete arguments. -/
theorem provision_mysql_sanitizes_identifiers_and_quotes_root_witness :
    (provision_mysql "demo db" "demo/user" "pw" "root pw" "shared_mysql" "utf8mb4"
      "utf8mb4_unicode_ci" provisionEnvRunning ⟨[], [], []⟩).sqlSent =
      some (renderScript (provisionScript (sanitize_filename "demo db")
        (sanitize_filename "demo/user") "pw" "utf8mb4" "utf8mb4_unicode_ci")) ∧
    (provision_mysql "demo db" "demo/user" "pw" "root pw" "shared_mysql" "utf8mb4"
      "utf8mb4_unicode_ci" provisionEnvRunning ⟨[], [], []⟩).cmdRun =
      some ("docker exec -i " ++ "shared_mysql" ++ " mysql -uroot -p" ++ shlexQuote "root pw") :=
  provision_mysql_sanitizes_identifiers_and_quotes_root "demo db" "demo/user" "pw"
    "root pw" "shared_mysql" "utf8mb4" "utf8mb4_unicode_ci" provisionEnvRunning
    ⟨[], [], []⟩ (by decide) (by decide) (by decide) (by decide) (by decide) rfl

/-- Pipeline environment for a healthy build into a fresh directory. -/
def envBuildFresh : PipelineEnv :=
  { envSample with dirExists := false }

/-- Pipeline environment for a build whose shared MySQL container is down. -/
def envBuildDown : PipelineEnv :=
  { envSample with dirExists := false, provisionEnv := provisionEnvDown }

/-- C1 amended: redeploy never re-renders configuration at all.  The
/redeploy payload declares only the domain, while render_site_templates
reads req.framework first, so every redeploy of an existing site stops the
containers and pulls the source, then fails with AttributeError before any
template is rendered or any file written; the persisted application secret
and database credentials are left as they were only because nothing
rewrites them, not because the render step reuses them. -/
theorem redeploy_never_rerenders_configuration :
    ∀ (cfg : Config) (templates : List SiteTemplate) (req : RedeployRequest)
      (env : PipelineEnv), env.dirExists = true →
      redeploy_site cfg templates req env =
        (Except.error (Err.attributeError "framework"),
         [Event.composeDown, Event.gitPull env.gitPullOk]) := by
  intro cfg templates req env h
  simp [redeploy_site, h]

/-- Witness for the amended C1 theorem: a concrete redeploy of an existing
site. -/
theorem redeploy_never_rerenders_configuration_witness :
    envSample.dirExists = true ∧
      redeploy_site cfgSample [envTemplate] redeployReqSample envSample =
        (Except.error (Err.attributeError "framework"),
         [Event.composeDown, Event.gitPull true]) :=
  ⟨rfl, redeploy_never_rerenders_configuration cfgSample [envTemplate] redeployReqSample
    envSample rfl⟩

/-- C1 counterexample: a concrete redeploy of an existing site does not
re-render configuration using the persisted database credentials and
application secret — it raises AttributeError straight after stopping the
containers and pulling the source, and its effect trace contains no file
write and no container start: the re-rendering the claim describes never
happens. -/
theorem redeploy_secret_not_preserved_counterexample :
    envSample.dirExists = true ∧
    redeploy_site cfgSample [envTemplate] redeployReqSample envSample =
      (Except.error (Err.attributeError "framework"),
       [Event.composeDown, Event.gitPull true]) ∧
    (redeploy_site cfgSample [envTemplate] redeployReqSample envSample).2.filter
      (fun ev => match ev with
        | Event.fileWrite _ _ => true
        | Event.composeUp _ => true
        | _ => false) = [] := by
  refine ⟨rfl, rfl, rfl⟩

/-- Helper: the result component of buildFinish does not depend on the
setup step's events or MySQL state. -/
theorem buildFinish_result_ignores_setup
    (cfg : Config) (templates : List SiteTemplate) (req2 : BuildRequest)
    (renderEntropy : String) (composeUpOk : Bool) (app_dir app_name : String)
    (pre : List Event) (s1 s2 : List Event × MySqlState) :
    (buildFinish cfg templates req2 renderEntropy composeUpOk app_dir app_name pre s1).1 =
    (buildFinish cfg templates req2 renderEntropy composeUpOk app_dir app_name pre s2).1 := by
  simp only [buildFinish]
  cases render_site_templates cfg templates req2 app_dir app_name renderEntropy with
  | mk rres revs =>
    cases rres
    · rfl
    · cases composeUpOk <;> rfl

/-- C2 amended: provision_mysql reports failure by returning false, but
setup_laravel_site discards that result, so the build outcome is invariant
under the provisioning environment — a failed provisioning neither fails
the run nor stops the later steps. -/
theorem build_result_independent_of_provisioning :
    ∀ (cfg : Config) (templates : List SiteTemplate) (req : BuildRequest)
      (env : PipelineEnv) (pe1 pe2 : ProvisionEnv) (m : String) (st : MySqlState),
      (build_site cfg templates req { env with provisionEnv := pe1 } m st).1 =
      (build_site cfg templates req { env with provisionEnv := pe2 } m st).1 := by
  intro cfg templates req env pe1 pe2 m st
  obtain ⟨de, dne, gco, tr, pe, co, npo, gpo, cuo, ee, re, pak⟩ := env
  cases gco <;> cases de <;> cases dne <;>
    simp [build_site] <;>
    (cases hf : resolveFramework req tr <;> simp [hf]) <;>
    exact buildFinish_result_ignores_setup ..

set_option maxRecDepth 40000 in
/-- C2 counterexample: a build whose shared MySQL container is not running
(provisioning returns false) still renders templates, starts the containers
and reports success — the provisioning failure is swallowed, not fatal. -/
theorem build_swallows_provisioning_failure_counterexample :
    (provision_mysql "demo_db" "demo_user" "secret" "rootpw" "shared_mysql" "utf8mb4"
      "utf8mb4_unicode_ci" provisionEnvDown ⟨[], [], []⟩).ok = false ∧
    (build_site cfgSample [envTemplate] reqSample envBuildDown "rootpw" ⟨[], [], []⟩).1 =
      Except.ok "Site demo deployed successfully" ∧
    Event.provisionDb false ∈
      (build_site cfgSample [envTemplate] reqSample envBuildDown "rootpw" ⟨[], [], []⟩).2.1 ∧
    Event.composeUp true ∈
      (build_site cfgSample [envTemplate] reqSample envBuildDown "rootpw" ⟨[], [], []⟩).2.1 := by
  refine ⟨rfl, rfl, by decide, by decide⟩

/-- C3 amended: build_site performs no pre-existence check.  When the site
directory already exists and is non-empty, the run fails because git clone
exits non-zero, raising the generic clone error; up to that point the only
effects are the exist_ok mkdir (a no-op on the existing directory) and the
failed clone attempt. -/
theorem build_existing_nonempty_dir_fails_on_clone
    (cfg : Config) (templates : List SiteTemplate) (req : BuildRequest)
    (env : PipelineEnv) (m : String) (st : MySqlState)
    (hex : env.dirExists = true) (hne : env.dirNonEmpty = true) :
    build_site cfg templates req env m st =
      (Except.error (Err.message "Git clone failed"),
       [Event.mkdirP (cfg.base_dir ++ "/" ++ firstLabel req.domain) true,
        Event.gitClone req.repo (cfg.base_dir ++ "/" ++ firstLabel req.domain) false],
       st) := by
  simp [build_site, hex, hne]

/-- Witness for the amended C3 theorem: concrete build against an existing
non-empty directory. -/
theorem build_existing_nonempty_dir_fails_on_clone_witness :
    ({ envSample with dirNonEmpty := true } : PipelineEnv).dirExists = true ∧
    build_site cfgSample [envTemplate] reqSample { envSample with dirNonEmpty := true }
        "rootpw" ⟨[], [], []⟩ =
      (Except.error (Err.message "Git clone failed"),
       [Event.mkdirP "/opt/sites/demo" true,
        Event.gitClone "https://github.com/acme/app.git" "/opt/sites/demo" false],
       ⟨[], [], []⟩) :=
  ⟨rfl, build_existing_nonempty_dir_fails_on_clone cfgSample [envTemplate] reqSample
    { envSample with dirNonEmpty := true } "rootpw" ⟨[], [], []⟩ rfl rfl⟩

set_option maxRecDepth 40000 in
/-- C3 counterexample: a build whose site directory already exists (empty)
does not fail with a conflict error and is not mutation-free — it proceeds
through clone, rendering and container start and reports success. -/
theorem build_existing_dir_not_rejected_counterexample :
    envSample.dirExists = true ∧
    (build_site cfgSample [envTemplate] reqSample envSample "rootpw" ⟨[], [], []⟩).1 =
      Except.ok "Site demo deployed successfully" ∧
    Event.composeUp true ∈
      (build_site cfgSample [envTemplate] reqSample envSample "rootpw" ⟨[], [], []⟩).2.1 := by
  refine ⟨rfl, rfl, by decide⟩

/-- C4 amended: the rendering pass writes each template's output before
rendering the next one; when a later template fails to render, the run
fails but the outputs of every earlier template have already been written
— one file per successfully rendered template. -/
theorem renderLoop_writes_prefix_before_failure
    (ts1 ts2 : List SiteTemplate) (bad : SiteTemplate) (app_dir : String)
    (ctx : RenderCtx) (e : String)
    (hgood : ∀ t ∈ ts1, ∃ c, t.render ctx = Except.ok c)
    (hbad : bad.render ctx = Except.error e) :
    (renderLoop (ts1 ++ bad :: ts2) app_dir ctx).1 = Except.error (Err.message e) ∧
    (renderLoop (ts1 ++ bad :: ts2) app_dir ctx).2.length = ts1.length := by
  induction ts1 with
  | nil => simp [renderLoop, hbad]
  | cons t ts ih =>
    obtain ⟨c, hc⟩ := hgood t (by simp)
    have ih2 := ih (fun u hu => hgood u (by simp [hu]))
    simp [renderLoop, hc, ih2.1, ih2.2]

/-- Witness for the amended C4 theorem: one good template before a broken
one. -/
theorem renderLoop_writes_prefix_before_failure_witness :
    (badTemplate.render (mkRenderCtx cfgSample reqSample "demo" "8.3"
      ⟨"img", "ext"⟩ "TOK") = Except.error "template not found") ∧
    (renderLoop ([envTemplate] ++ badTemplate :: []) "/opt/sites/demo"
      (mkRenderCtx cfgSample reqSample "demo" "8.3" ⟨"img", "ext"⟩ "TOK")).1 =
      Except.error (Err.message "template not found") ∧
    (renderLoop ([envTemplate] ++ badTemplate :: []) "/opt/sites/demo"
      (mkRenderCtx cfgSample reqSample "demo" "8.3" ⟨"img", "ext"⟩ "TOK")).2.length =
      [envTemplate].length :=
  ⟨rfl,
   renderLoop_writes_prefix_before_failure [envTemplate] [] badTemplate "/opt/sites/demo"
    (mkRenderCtx cfgSample reqSample "demo" "8.3" ⟨"img", "ext"⟩ "TOK") "template not found"
    (fun t ht => by
      simp only [List.mem_singleton] at ht
      subst ht
      exact ⟨_, rfl⟩)
    rfl⟩

set_option maxRecDepth 40000 in
/-- C4 counterexample: a rendering pass over two templates whose second
fails still writes the first template's output file — a rendering failure
leaves partially-written configuration. -/
theorem render_partial_write_counterexample :
    (render_site_templates cfgSample [envTemplate, badTemplate] reqSample
      "/opt/sites/demo" "demo" "TOK").1 = Except.error (Err.message "template not found") ∧
    (render_site_templates cfgSample [envTemplate, badTemplate] reqSample
      "/opt/sites/demo" "demo" "TOK").2 =
      [Event.fileWrite "/opt/sites/demo/env" "APP_KEY=base64:TOK\nDB_PASSWORD=secret"] := by
  refine ⟨rfl, rfl⟩

/-- C9 amended: the /build endpoint executes the whole pipeline inside the
HTTP request: its event trace is the token check, then every pipeline
event, then the response — which is computed from the pipeline's result.
No queueing or per-site mutual-exclusion construct exists in the handler. -/
theorem build_endpoint_is_synchronous
    (cfg : Config) (templates : List SiteTemplate) (req : BuildRequest)
    (env : PipelineEnv) (m : String) (st : MySqlState) (token agentToken : String)
    (hauth : (agentToken ≠ "" && token ≠ agentToken) = false) :
    (build_site_endpoint cfg templates req env m st token agentToken).2 =
      Event.authCheck :: (build_site cfg templates req env m st).2.1 ++ [Event.respond] ∧
    (build_site_endpoint cfg templates req env m st token agentToken).1 =
      (match (build_site cfg templates req env m st).1 with
       | Except.ok msg => HttpResponse.success msg
       | Except.error _ => HttpResponse.httpError 500 "Build failed") := by
  rcases hb : build_site cfg templates req env m st with ⟨res, evs, st2⟩
  simp only [build_site_endpoint, hauth, hb]
  cases res <;> simp

/-- Witness for the amended C9 theorem: a concrete request with the token
gate disabled. -/
theorem build_endpoint_is_synchronous_witness :
    (("" : String) ≠ "" && ("tok" : String) ≠ "") = false ∧
    (build_site_endpoint cfgSample [envTemplate] reqSample envBuildFresh "rootpw"
        ⟨[], [], []⟩ "tok" "").2 =
      Event.authCheck ::
        (build_site cfgSample [envTemplate] reqSample envBuildFresh "rootpw"
          ⟨[], [], []⟩).2.1 ++ [Event.respond] ∧
    (build_site_endpoint cfgSample [envTemplate] reqSample envBuildFresh "rootpw"
        ⟨[], [], []⟩ "tok" "").1 =
      (match (build_site cfgSample [envTemplate] reqSample envBuildFresh "rootpw"
        ⟨[], [], []⟩).1 with
       | Except.ok msg => HttpResponse.success msg
       | Except.error _ => HttpResponse.httpError 500 "Build failed") :=
  ⟨by decide,
   (build_endpoint_is_synchronous cfgSample [envTemplate] reqSample envBuildFresh
    "rootpw" ⟨[], [], []⟩ "tok" "" (by decide)).1,
   (build_endpoint_is_synchronous cfgSample [envTemplate] reqSample envBuildFresh
    "rootpw" ⟨[], [], []⟩ "tok" "" (by decide)).2⟩

set_option maxRecDepth 40000 in
/-- C9 counterexample: for a concrete submission the response event comes
last — pipeline events, including the container start, all precede it, so
submission blocks on pipeline execution instead of returning immediately. -/
theorem build_endpoint_blocks_counterexample :
    ((build_site_endpoint cfgSample [envTemplate] reqSample envBuildFresh "rootpw"
        ⟨[], [], []⟩ "tok" "").2.takeWhile (fun e => e ≠ Event.respond)).filter
        isPipelineEvent ≠ [] ∧
    (build_site_endpoint cfgSample [envTemplate] reqSample envBuildFresh "rootpw"
        ⟨[], [], []⟩ "tok" "").2.getLast? = some Event.respond ∧
    Event.composeUp true ∈
      ((build_site_endpoint cfgSample [envTemplate] reqSample envBuildFresh "rootpw"
        ⟨[], [], []⟩ "tok" "").2.takeWhile (fun e => e ≠ Event.respond)) := by
  refine ⟨by decide, by decide, by decide⟩

end ServerBond
